import Mathlib

/-!
Verification of the Domio booking-lifecycle logic
(src/controllers/bookingController.js) via a shallow embedding.

Modelling conventions:
* Calendar dates / timestamps are natural numbers (milliseconds).  The
  repository stores dates as strings and compares them with the document
  store's total order; an abstract totally ordered carrier (Nat) captures
  exactly the comparisons the code performs.
* Monetary amounts are rationals; the JS expression
  `+(price * 0.05).toFixed(2)` is embedded as rounding to two decimal
  places, half away from zero toward the larger value, matching toFixed.
* `req.user` (the auth middleware's identity) and the stored `user` field
  are `Option Nat`.
* The document store is a list of bookings; a booking id is its index.
* Each HTTP error response is mapped to the design taxonomy by its site:
  400 on the validation block = ValidationError, 404 = NotFoundError,
  400 "Place already booked for selected dates" = ConflictError,
  403 = AuthorizationError, 400 lifecycle-state messages = StateError,
  402 = PaymentError, and the catch-all 500 = an internal error.
* `Math.random` outcomes and `Date.now()` are explicit parameters.
-/

/-- Booking status constants (BOOKING_STATUS in the controller). -/
inductive BStatus
  | pending
  | confirmed
  | canceled
deriving DecidableEq, Repr

/-- A persisted booking document (models/Booking plus the fields the
controller writes in `bookingData`). `placeRef` is the `place` field
(set only for type=place); `itemRef` is the `item` field. -/
structure Booking where
  type : String
  placeRef : Option Nat
  itemRef : Option Nat
  user : Option Nat
  checkIn : Option Nat
  checkOut : Option Nat
  date : Option Nat
  numberOfGuests : Int
  name : String
  phone : String
  price : ℚ
  serviceFee : ℚ
  totalAmount : ℚ
  address : String
  paymentMethod : String
  status : BStatus
  refundRequested : Bool
  refundRequestedAt : Option Nat
  transactionId : String
deriving DecidableEq, Repr

/-- A catalog item as resolved by Place/Experience/Service.findById. -/
structure Item where
  price : ℚ
  address : String
deriving DecidableEq, Repr

/-- The catalog lookup collaborator: each of the three collections,
keyed by item id. -/
structure Catalog where
  place : Nat → Option Item
  experience : Nat → Option Item
  service : Nat → Option Item

/-- The createBooking request body (req.body plus req.user).  JS-absent
or falsy-empty fields are `none`; `numberOfGuests` keeps the falsy zero
distinct, mirroring `!numberOfGuests`. -/
structure CreateReq where
  type : Option String
  itemId : Option Nat
  checkIn : Option Nat
  checkOut : Option Nat
  date : Option Nat
  numberOfGuests : Option Int
  name : String
  phone : String
  paymentMethod : Option String
  transactionId : Option String
  totalPrice : Option ℚ
  user : Option Nat
deriving Repr

/-- Errors of the non-create operations, per the design taxonomy. -/
inductive BookingError
  | notFoundError
  | authorizationError
  | stateError
  | paymentError
deriving DecidableEq, Repr

/-- Outcome of createBooking.  `internalError` is the catch-block 500
(in particular the TypeError thrown at `itemDetails.address` when
`itemDetails` was never assigned). -/
inductive CreateOutcome
  | validationError
  | notFoundError
  | conflictError
  | internalError
  | created (b : Booking)
deriving DecidableEq, Repr

/-- The first validation test: `!type || !itemId || !numberOfGuests ||
!name || !phone || !paymentMethod` (JS falsiness). -/
def missingRequired (r : CreateReq) : Bool :=
  r.type.isNone || r.itemId.isNone || r.numberOfGuests.isNone ||
  decide (r.numberOfGuests = some 0) || decide (r.name = "") ||
  decide (r.phone = "") || r.paymentMethod.isNone

/-- First character class of the phone regex: [6-9]. -/
def isSixToNine (c : Char) : Bool :=
  decide ('6' ≤ c) && decide (c ≤ '9')

/-- The regex digit class \d = [0-9]. -/
def isDigitChar (c : Char) : Bool :=
  decide ('0' ≤ c) && decide (c ≤ '9')

/-- The phone test: regex /^[6-9]\d{9}$/ . -/
def validPhone (s : String) : Bool :=
  match s.data with
  | [] => false
  | c :: cs => isSixToNine c && decide (cs.length = 9) && cs.all isDigitChar

/-- ASCII letter class [A-Za-z] of the name regex. -/
def isAsciiLetter (c : Char) : Bool :=
  (decide ('A' ≤ c) && decide (c ≤ 'Z')) || (decide ('a' ≤ c) && decide (c ≤ 'z'))

/-- The JS regex whitespace class \s (space, tab, line terminators,
no-break space, Unicode space separators, BOM). -/
def isJsSpace (c : Char) : Bool :=
  decide (c.val = 0x20) || decide (c.val = 0x09) || decide (c.val = 0x0A) ||
  decide (c.val = 0x0B) || decide (c.val = 0x0C) || decide (c.val = 0x0D) ||
  decide (c.val = 0xA0) || decide (c.val = 0x1680) ||
  (decide (0x2000 ≤ c.val) && decide (c.val ≤ 0x200A)) ||
  decide (c.val = 0x2028) || decide (c.val = 0x2029) || decide (c.val = 0x202F) ||
  decide (c.val = 0x205F) || decide (c.val = 0x3000) || decide (c.val = 0xFEFF)

/-- The name test: regex /^[A-Za-z\s]{2,}$/ . -/
def validName (s : String) : Bool :=
  decide (2 ≤ s.data.length) && s.data.all (fun c => isAsciiLetter c || isJsSpace c)

/-- The guest test `isNaN(numberOfGuests) || numberOfGuests <= 0`
(numeric inputs only, so the isNaN disjunct is the missing case). -/
def guestsInvalid (g : Option Int) : Bool :=
  match g with
  | none => true
  | some n => decide (n ≤ 0)

/-- The place-only date block: checkIn/checkOut required and
`checkOutDate <= checkInDate` rejected. -/
def placeDatesBad (r : CreateReq) : Bool :=
  decide (r.type = some "place") &&
  (match r.checkIn, r.checkOut with
   | some ci, some co => decide (co ≤ ci)
   | _, _ => true)

/-- Mongo comparison `field < y` on a possibly missing field: a missing
field matches no range operator. -/
def oLt (x : Option Nat) (y : Nat) : Bool :=
  match x with
  | some v => decide (v < y)
  | none => false

/-- Mongo comparison `field <= y` on a possibly missing field. -/
def oLe (x : Option Nat) (y : Nat) : Bool :=
  match x with
  | some v => decide (v ≤ y)
  | none => false

/-- Mongo comparison `field > y` on a possibly missing field. -/
def oGt (x : Option Nat) (y : Nat) : Bool :=
  match x with
  | some v => decide (y < v)
  | none => false

/-- Mongo comparison `field >= y` on a possibly missing field. -/
def oGe (x : Option Nat) (y : Nat) : Bool :=
  match x with
  | some v => decide (y ≤ v)
  | none => false

/-- The three-clause $or of the overlap query, for a stored booking `b`
against the proposed range [ci, co):
  { checkIn:  { $lt: co, $gte: ci } } or
  { checkOut: { $lte: co, $gt: ci } } or
  { checkIn: { $lte: ci }, checkOut: { $gte: co } }. -/
def overlapClause (b : Booking) (ci co : Nat) : Bool :=
  (oLt b.checkIn co && oGe b.checkIn ci) ||
  (oLe b.checkOut co && oGt b.checkOut ci) ||
  (oLe b.checkIn ci && oGe b.checkOut co)

/-- Booking.findOne({ place: itemId, status: "confirmed", $or: [...] })
is non-null. -/
def hasConflict (s : List Booking) (itemId ci co : Nat) : Bool :=
  s.any (fun b =>
    decide (b.placeRef = some itemId) && decide (b.status = BStatus.confirmed) &&
    overlapClause b ci co)

/-- One day in milliseconds (`const oneDay`). -/
def oneDayMs : Nat := 1000 * 60 * 60 * 24

/-- Math.ceil((checkOut - checkIn) / oneDay) for checkOut > checkIn. -/
def nightsOf (ci co : Nat) : Nat :=
  (co - ci + oneDayMs - 1) / oneDayMs

/-- The JS `(x).toFixed(2)` rounding applied by the fee computation:
round to two decimals, ties to the larger value. -/
def round2 (q : ℚ) : ℚ :=
  ((⌊q * 100 + 1 / 2⌋ : ℤ) : ℚ) / 100

/-- The service fee: `Math.max(50, +(price * 0.05).toFixed(2))`. -/
def serviceFeeOf (price : ℚ) : ℚ :=
  max 50 (round2 (price * (5 / 100)))

/-- Generated transaction token TXN-${Date.now()}-${random}. -/
def genTxn (now rand : Nat) : String :=
  "TXN-" ++ toString now ++ "-" ++ toString rand

/-- The bookingData record persisted for a place booking (lines
125-153): price from base price times nights, fee and total, status
auto-"confirmed", user from the ambient identity, caller-supplied
transaction id kept, else a generated one. -/
def mkPlaceBooking (r : CreateReq) (itemId ci co : Nat) (item : Item)
    (now rand : Nat) : Booking :=
  let price : ℚ := item.price * (nightsOf ci co : ℚ)
  { type := "place"
    placeRef := some itemId
    itemRef := none
    user := r.user
    checkIn := some ci
    checkOut := some co
    date := none
    numberOfGuests := r.numberOfGuests.getD 0
    name := r.name
    phone := r.phone
    price := price
    serviceFee := serviceFeeOf price
    totalAmount := price + serviceFeeOf price
    address := item.address
    paymentMethod := r.paymentMethod.getD ""
    status := BStatus.confirmed
    refundRequested := false
    refundRequestedAt := none
    transactionId := r.transactionId.getD (genTxn now rand) }

/-- The switch(type) block.  In the place case: item lookup, overlap
query, pricing, persistence.  In the experience/service cases the code
resolves the item and computes a price but then evaluates
`itemDetails.address` with `itemDetails` still undefined, so every such
request throws a TypeError and lands in the catch block (500): embedded
as `internalError`, with nothing persisted. -/
def createSwitch (cat : Catalog) (store : List Booking) (now rand : Nat)
    (r : CreateReq) : CreateOutcome :=
  match r.type, r.itemId with
  | some t, some itemId =>
    if t = "place" then
      match r.checkIn, r.checkOut, cat.place itemId with
      | some ci, some co, some item =>
        if hasConflict store itemId ci co then CreateOutcome.conflictError
        else CreateOutcome.created (mkPlaceBooking r itemId ci co item now rand)
      | some _, some _, none => CreateOutcome.notFoundError
      | _, _, _ => CreateOutcome.validationError
    else if t = "experience" then
      match r.date, cat.experience itemId with
      | none, _ => CreateOutcome.validationError
      | some _, none => CreateOutcome.notFoundError
      | some _, some _ => CreateOutcome.internalError
    else if t = "service" then
      match r.date, cat.service itemId with
      | none, _ => CreateOutcome.validationError
      | some _, none => CreateOutcome.notFoundError
      | some _, some _ => CreateOutcome.internalError
    else CreateOutcome.validationError
  | _, _ => CreateOutcome.validationError

/-- The validation block (lines 35-72): five successive tests that each
return a 400 validation response; the block rejects exactly when one of
them fires, before any catalog lookup or persistence. -/
def validationRejects (r : CreateReq) : Bool :=
  missingRequired r || !validPhone r.phone || !validName r.name ||
  guestsInvalid r.numberOfGuests || placeDatesBad r

/-- createBooking: the validation block, then the switch. -/
def createBooking (cat : Catalog) (store : List Booking) (now rand : Nat)
    (r : CreateReq) : CreateOutcome :=
  if validationRejects r then CreateOutcome.validationError
  else createSwitch cat store now rand r

/-- The store after a create request: `Booking.create` appends on
success, every error path leaves the collection untouched. -/
def createPost (cat : Catalog) (store : List Booking) (now rand : Nat)
    (r : CreateReq) : List Booking :=
  match createBooking cat store now rand r with
  | CreateOutcome.created b => store ++ [b]
  | _ => store

/-- The authorization test shared by cancelBooking and requestRefund:
`req.user && booking.user && booking.user.toString() !== req.user.id`. -/
def authFails (requester userField : Option Nat) : Bool :=
  match requester, userField with
  | some u, some v => decide (v ≠ u)
  | _, _ => false

/-- initiatePayment: pending-only gate, simulated payment outcome, then
a fresh transaction id and status "confirmed" saved on the document. -/
def initiatePayment (s : List Booking) (idx : Nat) (paySuccess : Bool)
    (now rand : Nat) : Except BookingError (List Booking) :=
  match s.get? idx with
  | none => Except.error BookingError.notFoundError
  | some b =>
    if b.status ≠ BStatus.pending then Except.error BookingError.stateError
    else if !paySuccess then Except.error BookingError.paymentError
    else Except.ok (s.set idx
      { b with transactionId := genTxn now rand, status := BStatus.confirmed })

/-- The store after an initiatePayment request. -/
def payPost (s : List Booking) (idx : Nat) (paySuccess : Bool)
    (now rand : Nat) : List Booking :=
  match initiatePayment s idx paySuccess now rand with
  | Except.ok s2 => s2
  | Except.error _ => s

/-- cancelBooking: not-found, authorization, already-canceled gates,
then status := "canceled" saved. -/
def cancelBooking (s : List Booking) (idx : Nat) (requester : Option Nat) :
    Except BookingError (List Booking) :=
  match s.get? idx with
  | none => Except.error BookingError.notFoundError
  | some b =>
    if authFails requester b.user then Except.error BookingError.authorizationError
    else if b.status = BStatus.canceled then Except.error BookingError.stateError
    else Except.ok (s.set idx { b with status := BStatus.canceled })

/-- The store after a cancel request. -/
def cancelPost (s : List Booking) (idx : Nat) (requester : Option Nat) :
    List Booking :=
  match cancelBooking s idx requester with
  | Except.ok s2 => s2
  | Except.error _ => s

/-- requestRefund: not-found, authorization, canceled-only and
not-yet-requested gates, then refundRequested := true with its
timestamp saved. -/
def requestRefund (s : List Booking) (idx : Nat) (requester : Option Nat)
    (now : Nat) : Except BookingError (List Booking) :=
  match s.get? idx with
  | none => Except.error BookingError.notFoundError
  | some b =>
    if authFails requester b.user then Except.error BookingError.authorizationError
    else if b.status ≠ BStatus.canceled then Except.error BookingError.stateError
    else if b.refundRequested then Except.error BookingError.stateError
    else Except.ok (s.set idx
      { b with refundRequested := true, refundRequestedAt := some now })

/-- The store after a refund request. -/
def refundPost (s : List Booking) (idx : Nat) (requester : Option Nat)
    (now : Nat) : List Booking :=
  match requestRefund s idx requester now with
  | Except.ok s2 => s2
  | Except.error _ => s

/-- Half-open-interval double-booking between two stored bookings: both
confirmed, same place reference, and [aci, aco) meets [bci, bco). -/
def samePlace : Option Nat → Option Nat → Bool
  | some p, some q => decide (p = q)
  | _, _ => false

/-- Overlap of two stored date ranges under [checkIn, checkOut)
semantics; false unless all four endpoints are present. -/
def rangesOverlap : Option Nat → Option Nat → Option Nat → Option Nat → Bool
  | some ai, some ao, some bi, some bo => decide (ai < bo) && decide (bi < ao)
  | _, _, _, _ => false

/-- Two bookings double-book the same place. -/
def conflictPair (a b : Booking) : Bool :=
  decide (a.status = BStatus.confirmed) && decide (b.status = BStatus.confirmed) &&
  samePlace a.placeRef b.placeRef &&
  rangesOverlap a.checkIn a.checkOut b.checkIn b.checkOut

/-- No element of the list double-books with b. -/
def noConflictWith (b : Booking) (l : List Booking) : Bool :=
  l.all (fun x => !conflictPair b x)

/-- No two bookings in the store double-book the same place. -/
def noDoubleBook : List Booking → Bool
  | [] => true
  | b :: t => noConflictWith b t && noDoubleBook t

/-- No stored booking is pending (auto-confirm policy: createBooking
persists status "confirmed" directly). -/
def noPending (s : List Booking) : Bool :=
  s.all (fun b => decide (b.status ≠ BStatus.pending))

/-- States reachable from the empty collection by the four booking
operations, each executed one at a time. -/
inductive Reachable (cat : Catalog) : List Booking → Prop
  | empty : Reachable cat []
  | createStep (s : List Booking) (now rand : Nat) (r : CreateReq) :
      Reachable cat s → Reachable cat (createPost cat s now rand r)
  | payStep (s : List Booking) (idx : Nat) (ok : Bool) (now rand : Nat) :
      Reachable cat s → Reachable cat (payPost s idx ok now rand)
  | cancelStep (s : List Booking) (idx : Nat) (requester : Option Nat) :
      Reachable cat s → Reachable cat (cancelPost s idx requester)
  | refundStep (s : List Booking) (idx : Nat) (requester : Option Nat) (now : Nat) :
      Reachable cat s → Reachable cat (refundPost s idx requester now)

/-- The status of the booking at an index, if any. -/
def statusAt (s : List Booking) (idx : Nat) : Option BStatus :=
  (s.get? idx).map Booking.status

/-- Sample catalog: place 1 at base price 1000, experience 2 at base
price 500. -/
def sampleItem : Item := { price := 1000, address := "Hyderabad" }

/-- Sample experience item. -/
def sampleExperienceItem : Item := { price := 500, address := "" }

/-- Sample catalog used by the concrete evaluations. -/
def sampleCatalog : Catalog :=
  { place := fun i => if i = 1 then some sampleItem else none
    experience := fun i => if i = 2 then some sampleExperienceItem else none
    service := fun _ => none }

/-- A valid place request: [day 10, day 13) at place 1. -/
def samplePlaceReq : CreateReq :=
  { type := some "place"
    itemId := some 1
    checkIn := some (10 * oneDayMs)
    checkOut := some (13 * oneDayMs)
    date := none
    numberOfGuests := some 2
    name := "Ravi Kumar"
    phone := "9876543210"
    paymentMethod := some "card"
    transactionId := some "TXN-demo"
    totalPrice := none
    user := some 7 }

/-- A valid experience request for item 2 with four guests. -/
def sampleExperienceReq : CreateReq :=
  { type := some "experience"
    itemId := some 2
    checkIn := none
    checkOut := none
    date := some (20 * oneDayMs)
    numberOfGuests := some 4
    name := "Ravi Kumar"
    phone := "9876543210"
    paymentMethod := some "card"
    transactionId := none
    totalPrice := none
    user := none }

example : validPhone "9876543210" = true := by decide
example : validPhone "1876543210" = false := by decide
example : validName "Ravi Kumar" = true := by decide
example : validName "A" = false := by decide
example : nightsOf (10 * oneDayMs) (13 * oneDayMs) = 3 := by decide
example : serviceFeeOf 3000 = 150 := by
  rw [serviceFeeOf, round2]
  norm_num [max_def]
example : serviceFeeOf 0 = 50 := by
  rw [serviceFeeOf, round2]
  norm_num [max_def]
example :
    createBooking sampleCatalog [] 0 0 samplePlaceReq =
      CreateOutcome.created
        (mkPlaceBooking samplePlaceReq 1 (10 * oneDayMs) (13 * oneDayMs)
          sampleItem 0 0) := by rfl
example :
    createBooking sampleCatalog [] 0 0 sampleExperienceReq =
      CreateOutcome.internalError := by rfl

/-- If a stored range [bi, bo) meets the proposed [ci, co) by the
two-comparison rule, the three-clause query matches it (no validity
assumptions needed). -/
lemma clause_of_overlap (b : Booking) (ci co bi bo : Nat)
    (h1 : b.checkIn = some bi) (h2 : b.checkOut = some bo)
    (hlt : bi < co) (hgt : ci < bo) : overlapClause b ci co = true := by
  unfold overlapClause oLt oLe oGt oGe
  rw [h1, h2]
  simp only [Bool.or_eq_true, Bool.and_eq_true, decide_eq_true_eq]
  omega

/-- Conversely, when both ranges are well formed, a three-clause match
implies the two-comparison overlap. -/
lemma overlap_of_clause (b : Booking) (ci co bi bo : Nat)
    (h1 : b.checkIn = some bi) (h2 : b.checkOut = some bo)
    (hb : bi < bo) (hr : ci < co)
    (hc : overlapClause b ci co = true) : bi < co ∧ ci < bo := by
  unfold overlapClause oLt oLe oGt oGe at hc
  rw [h1, h2] at hc
  simp only [Bool.or_eq_true, Bool.and_eq_true, decide_eq_true_eq] at hc
  omega

/-- Under the hypotheses that place validation passed and the item
resolves, createBooking reduces to the availability check. -/
lemma createBooking_place_eq (cat : Catalog) (store : List Booking)
    (now rand : Nat) (r : CreateReq) (itemId ci co : Nat) (item : Item)
    (ht : r.type = some "place") (hi : r.itemId = some itemId)
    (hci : r.checkIn = some ci) (hco : r.checkOut = some co)
    (hval : validationRejects r = false)
    (hcat : cat.place itemId = some item) :
    createBooking cat store now rand r =
      (if hasConflict store itemId ci co then CreateOutcome.conflictError
       else CreateOutcome.created (mkPlaceBooking r itemId ci co item now rand)) := by
  unfold createBooking createSwitch
  rw [hval, ht, hi]
  simp only [Bool.false_eq_true, if_false]
  simp [hci, hco, hcat]

/-- Inversion: a booking persisted by createBooking comes from the
place branch with valid ordered dates, a resolved item, no conflict,
and the exact bookingData record. -/
lemma createBooking_created_inv (cat : Catalog) (store : List Booking)
    (now rand : Nat) (r : CreateReq) (b : Booking)
    (h : createBooking cat store now rand r = CreateOutcome.created b) :
    ∃ itemId ci co item,
      r.type = some "place" ∧ r.itemId = some itemId ∧
      r.checkIn = some ci ∧ r.checkOut = some co ∧ ci < co ∧
      cat.place itemId = some item ∧
      hasConflict store itemId ci co = false ∧
      b = mkPlaceBooking r itemId ci co item now rand := by
  unfold createBooking at h
  split at h
  · exact CreateOutcome.noConfusion h
  next hvr =>
  have hval : validationRejects r = false := by
    revert hvr; cases validationRejects r <;> simp
  have hpd : placeDatesBad r = false := by
    revert hval; unfold validationRejects; cases placeDatesBad r <;> simp
  unfold createSwitch at h
  split at h
  case _ t itemId htype hitem =>
    split at h
    case isTrue hpl =>
      subst hpl
      split at h
      case _ ci co item hci hco hcat =>
        split at h
        · exact CreateOutcome.noConfusion h
        case isFalse hconf =>
          injection h with hb
          have hrange : ci < co := by
            unfold placeDatesBad at hpd
            rw [htype, hci, hco] at hpd
            simp at hpd
            omega
          exact ⟨itemId, ci, co, item, htype, hitem, hci, hco, hrange, hcat,
            by revert hconf; cases hasConflict store itemId ci co <;> simp,
            hb.symm⟩
      case _ hci hco hcat => exact CreateOutcome.noConfusion h
      case _ => exact CreateOutcome.noConfusion h
    case isFalse hpl =>
      split at h
      · split at h <;> exact CreateOutcome.noConfusion h
      · split at h
        · split at h <;> exact CreateOutcome.noConfusion h
        · exact CreateOutcome.noConfusion h
  case _ => exact CreateOutcome.noConfusion h

/-- The booking record persisted for the sample place request. -/
def samplePlaceBooking : Booking :=
  mkPlaceBooking samplePlaceReq 1 (10 * oneDayMs) (13 * oneDayMs) sampleItem 0 0

/-- C2: for a proposed place booking over [ci, co) with ci < co that
passes validation and resolves its item, createBooking rejects with a
ConflictError if and only if some stored booking on the same place has
status confirmed and satisfies checkIn < co and checkOut > ci (the
three-clause query is equivalent to the two-comparison overlap rule);
pending or canceled bookings never cause the rejection. -/
theorem c2_conflict_predicate_equivalence (cat : Catalog) (store : List Booking)
    (now rand : Nat) (r : CreateReq) (itemId ci co : Nat) (item : Item)
    (ht : r.type = some "place") (hi : r.itemId = some itemId)
    (hci : r.checkIn = some ci) (hco : r.checkOut = some co)
    (hrange : ci < co)
    (hval : validationRejects r = false)
    (hcat : cat.place itemId = some item)
    (hstore : ∀ b ∈ store, b.placeRef = some itemId →
      b.status = BStatus.confirmed →
      ∃ bi bo, b.checkIn = some bi ∧ b.checkOut = some bo ∧ bi < bo) :
    createBooking cat store now rand r = CreateOutcome.conflictError ↔
      ∃ b ∈ store, b.placeRef = some itemId ∧ b.status = BStatus.confirmed ∧
        ∃ bi bo, b.checkIn = some bi ∧ b.checkOut = some bo ∧
          bi < co ∧ ci < bo := by
  rw [createBooking_place_eq cat store now rand r itemId ci co item
    ht hi hci hco hval hcat]
  cases hcf : hasConflict store itemId ci co with
  | true =>
    simp only [if_true]
    constructor
    · intro _
      unfold hasConflict at hcf
      rw [List.any_eq_true] at hcf
      obtain ⟨b, hmem, hpred⟩ := hcf
      simp only [Bool.and_eq_true, decide_eq_true_eq] at hpred
      obtain ⟨⟨hpl, hst⟩, hcl⟩ := hpred
      obtain ⟨bi, bo, hbi, hbo, hbv⟩ := hstore b hmem hpl hst
      obtain ⟨h1, h2⟩ := overlap_of_clause b ci co bi bo hbi hbo hbv hrange hcl
      exact ⟨b, hmem, hpl, hst, bi, bo, hbi, hbo, h1, h2⟩
    · intro _
      trivial
  | false =>
    simp only [Bool.false_eq_true, if_false]
    constructor
    · intro h
      exact absurd h (by simp)
    · rintro ⟨b, hmem, hpl, hst, bi, bo, hbi, hbo, h1, h2⟩
      exfalso
      have htrue : hasConflict store itemId ci co = true := by
        unfold hasConflict
        rw [List.any_eq_true]
        refine ⟨b, hmem, ?_⟩
        simp [hpl, hst, clause_of_overlap b ci co bi bo hbi hbo h1 h2]
      rw [hcf] at htrue
      exact Bool.noConfusion htrue

/-- The spec's overlap example: new range [day 12, day 15) against a
confirmed booking on [day 10, day 13) of the same place. -/
def conflictingReq : CreateReq :=
  { samplePlaceReq with
    checkIn := some (12 * oneDayMs), checkOut := some (15 * oneDayMs) }

/-- Witness for C2: the overlapping request is rejected with a
ConflictError. -/
theorem c2_witness :
    createBooking sampleCatalog [samplePlaceBooking] 0 0 conflictingReq =
      CreateOutcome.conflictError :=
  (c2_conflict_predicate_equivalence sampleCatalog [samplePlaceBooking] 0 0
    conflictingReq 1 (12 * oneDayMs) (15 * oneDayMs) sampleItem
    rfl rfl rfl rfl (by decide) (by decide) rfl
    (by
      rintro b hb hpl hst
      rw [List.mem_singleton] at hb
      subst hb
      exact ⟨10 * oneDayMs, 13 * oneDayMs, rfl, rfl, by decide⟩)).mpr
    ⟨samplePlaceBooking, List.mem_singleton_self _, rfl, rfl,
      10 * oneDayMs, 13 * oneDayMs, rfl, rfl, by decide, by decide⟩

/-- The fee floor at zero price. -/
lemma serviceFeeOf_zero : serviceFeeOf 0 = 50 := by
  rw [serviceFeeOf, round2]
  norm_num [max_def]

/-- C3: every booking persisted by createBooking satisfies
serviceFee = max(50, round2(price * 0.05)) and
totalAmount = price + serviceFee; in particular price = 0 gives
serviceFee = 50. -/
theorem c3_fee_total_postcondition (cat : Catalog) (store : List Booking)
    (now rand : Nat) (r : CreateReq) (b : Booking)
    (h : createBooking cat store now rand r = CreateOutcome.created b) :
    b.serviceFee = max 50 (round2 (b.price * (5 / 100))) ∧
    b.totalAmount = b.price + b.serviceFee ∧
    (b.price = 0 → b.serviceFee = 50) := by
  obtain ⟨itemId, ci, co, item, _, _, _, _, _, _, _, hb⟩ :=
    createBooking_created_inv cat store now rand r b h
  subst hb
  refine ⟨rfl, rfl, ?_⟩
  intro hp
  have hfee : (mkPlaceBooking r itemId ci co item now rand).serviceFee =
      serviceFeeOf ((mkPlaceBooking r itemId ci co item now rand).price) := rfl
  rw [hfee, hp, serviceFeeOf_zero]

/-- Witness for C3 at the sample place request (3 nights at base price
1000: fee 150, total 3150 per the spec example). -/
theorem c3_witness :
    samplePlaceBooking.serviceFee =
      max 50 (round2 (samplePlaceBooking.price * (5 / 100))) ∧
    samplePlaceBooking.totalAmount =
      samplePlaceBooking.price + samplePlaceBooking.serviceFee ∧
    (samplePlaceBooking.price = 0 → samplePlaceBooking.serviceFee = 50) :=
  c3_fee_total_postcondition sampleCatalog [] 0 0 samplePlaceReq
    samplePlaceBooking (by rfl)

/-- C4 (failing input): a fully valid experience request whose item
exists in the catalog is not priced and persisted; the code reaches the
undefined `itemDetails.address` access and ends in the catch block, so
creation returns the internal 500 error and stores nothing, instead of
persisting a booking with price = baseItemPrice * numberOfGuests. -/
theorem c4_experience_create_internal_error :
    validationRejects sampleExperienceReq = false ∧
    sampleCatalog.experience 2 = some sampleExperienceItem ∧
    createBooking sampleCatalog [] 0 0 sampleExperienceReq =
      CreateOutcome.internalError ∧
    createPost sampleCatalog [] 0 0 sampleExperienceReq = [] :=
  ⟨by decide, rfl, rfl, rfl⟩

/-- C8: the client-supplied totalPrice field is destructured but never
read again, so two create requests that differ only in totalPrice have
identical outcomes — in particular identical persisted price,
serviceFee and totalAmount. -/
theorem c8_total_price_ignored (cat : Catalog) (store : List Booking)
    (now rand : Nat) (r : CreateReq) (p : Option ℚ) :
    createBooking cat store now rand { r with totalPrice := p } =
      createBooking cat store now rand r := by
  cases r
  rfl

/-- A request valid except that its name holds a tab character. -/
def tabNameReq : CreateReq := { samplePlaceReq with name := "AB\t" }

/-- Counterexample for C10 as stated: the name "AB\t" contains a
character that is neither a letter nor a space, yet createBooking does
not reject the request with a ValidationError (the regex class \s also
accepts tabs, line terminators and other whitespace). -/
theorem c10_counterexample :
    ('\t' ∈ tabNameReq.name.data ∧ isAsciiLetter '\t' = false ∧ '\t' ≠ ' ') ∧
    createBooking sampleCatalog [] 0 0 tabNameReq ≠
      CreateOutcome.validationError := by
  refine ⟨⟨by decide, by decide, by decide⟩, ?_⟩
  intro h
  rw [show createBooking sampleCatalog [] 0 0 tabNameReq =
      CreateOutcome.created
        (mkPlaceBooking tabNameReq 1 (10 * oneDayMs) (13 * oneDayMs)
          sampleItem 0 0) from rfl] at h
  exact CreateOutcome.noConfusion h

/-- C10 (amended): createBooking rejects with a ValidationError — with
nothing persisted and no catalog lookup involved — every request whose
phone fails /^[6-9]\d{9}$/, or whose name is shorter than 2 characters
or contains a character outside ASCII letters and the JS whitespace
class \s. -/
theorem c10_contact_validation (cat : Catalog) (store : List Booking)
    (now rand : Nat) (r : CreateReq)
    (h : validPhone r.phone = false ∨ r.name.data.length < 2 ∨
      ∃ c ∈ r.name.data, isAsciiLetter c = false ∧ isJsSpace c = false) :
    createBooking cat store now rand r = CreateOutcome.validationError ∧
    createPost cat store now rand r = store := by
  have hrej : validationRejects r = true := by
    unfold validationRejects
    rcases h with h | h | ⟨c, hc, hl, hs⟩
    · simp [h]
    · have hvn : validName r.name = false := by
        unfold validName
        rw [decide_eq_false (by omega : ¬ 2 ≤ r.name.data.length)]
        simp
      simp [hvn]
    · have hvn : validName r.name = false := by
        unfold validName
        cases hall : r.name.data.all (fun c => isAsciiLetter c || isJsSpace c) with
        | false => simp
        | true =>
          exfalso
          have := List.all_eq_true.mp hall c hc
          simp [hl, hs] at this
      simp [hvn]
  have hout : createBooking cat store now rand r = CreateOutcome.validationError := by
    unfold createBooking
    rw [hrej]
    simp
  refine ⟨hout, ?_⟩
  unfold createPost
  rw [hout]

/-- A request valid except for its phone number (leading 1). -/
def badPhoneReq : CreateReq := { samplePlaceReq with phone := "1234567890" }

/-- Witness for the amended C10 at a concrete bad phone number. -/
theorem c10_witness :
    createBooking sampleCatalog [] 0 0 badPhoneReq =
      CreateOutcome.validationError ∧
    createPost sampleCatalog [] 0 0 badPhoneReq = [] :=
  c10_contact_validation sampleCatalog [] 0 0 badPhoneReq (Or.inl (by decide))

/-- The authorization test fails exactly when both an authenticated
requester and an owning user are present and they differ. -/
lemma authFails_iff (requester userField : Option Nat) :
    authFails requester userField = true ↔
      ∃ u v, requester = some u ∧ userField = some v ∧ u ≠ v := by
  cases requester with
  | none => simp [authFails]
  | some u =>
    cases userField with
    | none => simp [authFails]
    | some v =>
      simp only [authFails, decide_eq_true_eq, Option.some.injEq]
      constructor
      · intro h
        exact ⟨u, v, rfl, rfl, fun hh => h hh.symm⟩
      · rintro ⟨u2, v2, hu, hv, hne⟩
        subst hu
        subst hv
        exact fun hh => hne hh.symm

/-- C5: given an authorized requester, RequestRefund fails with a
StateError when status is not canceled, fails with a StateError when a
refund was already requested, and otherwise flips refundRequested to
true and stamps refundRequestedAt; a second request on the updated
store then fails with a StateError, so RequestRefund succeeds at most
once per booking. -/
theorem c5_refund_gate (store : List Booking) (idx : Nat)
    (requester : Option Nat) (now now2 : Nat) (b : Booking)
    (hb : store.get? idx = some b)
    (hauth : authFails requester b.user = false) :
    (b.status ≠ BStatus.canceled →
      requestRefund store idx requester now =
        Except.error BookingError.stateError) ∧
    (b.status = BStatus.canceled → b.refundRequested = true →
      requestRefund store idx requester now =
        Except.error BookingError.stateError) ∧
    (b.status = BStatus.canceled → b.refundRequested = false →
      requestRefund store idx requester now =
        Except.ok (store.set idx
          { b with refundRequested := true, refundRequestedAt := some now }) ∧
      requestRefund (refundPost store idx requester now) idx requester now2 =
        Except.error BookingError.stateError) := by
  refine ⟨?_, ?_, ?_⟩
  · intro hst
    unfold requestRefund
    rw [hb]
    simp [hauth, hst]
  · intro hst hreq
    unfold requestRefund
    rw [hb]
    simp [hauth, hst, hreq]
  · intro hst hreq
    have hres : requestRefund store idx requester now =
        Except.ok (store.set idx
          { b with refundRequested := true, refundRequestedAt := some now }) := by
      unfold requestRefund
      rw [hb]
      simp [hauth, hst, hreq]
    refine ⟨hres, ?_⟩
    have hpost : refundPost store idx requester now =
        store.set idx { b with refundRequested := true, refundRequestedAt := some now } := by
      unfold refundPost
      rw [hres]
    have hlen : idx < store.length := by
      rcases List.get?_eq_some.mp hb with ⟨hl, _⟩
      exact hl
    have hget : (store.set idx
        { b with refundRequested := true, refundRequestedAt := some now }).get? idx =
        some { b with refundRequested := true, refundRequestedAt := some now } :=
      List.get?_set_eq_of_lt _ hlen
    rw [hpost]
    unfold requestRefund
    rw [hget]
    simp [hauth, hst]

/-- A canceled booking owned by user 7, no refund requested yet. -/
def sampleCanceledBooking : Booking :=
  { samplePlaceBooking with status := BStatus.canceled }

/-- Witness for C5: refunding a canceled booking succeeds once and then
fails with a StateError. -/
theorem c5_witness :
    requestRefund [sampleCanceledBooking] 0 (some 7) 99 =
      Except.ok [{ sampleCanceledBooking with
        refundRequested := true, refundRequestedAt := some 99 }] ∧
    requestRefund (refundPost [sampleCanceledBooking] 0 (some 7) 99) 0 (some 7) 100 =
      Except.error BookingError.stateError := by
  have h := (c5_refund_gate [sampleCanceledBooking] 0 (some 7) 99 100
    sampleCanceledBooking rfl rfl).2.2 rfl rfl
  exact ⟨by simpa using h.1, h.2⟩

/-- C6: once a booking is canceled, a second Cancel by any authorized
requester fails with a StateError (never a silent success) and the
store is unchanged, InitiatePayment rejects it with a StateError, none
of the four operations changes its status, and in general
InitiatePayment rejects with a StateError every booking whose status is
not pending. -/
theorem c6_canceled_terminal (store : List Booking) (idx : Nat) (b : Booking)
    (hb : store.get? idx = some b) (hc : b.status = BStatus.canceled) :
    (∀ requester, authFails requester b.user = false →
      cancelBooking store idx requester = Except.error BookingError.stateError) ∧
    (∀ requester, cancelPost store idx requester = store) ∧
    (∀ ok now rand, initiatePayment store idx ok now rand =
      Except.error BookingError.stateError) ∧
    (∀ ok now rand, payPost store idx ok now rand = store) ∧
    (∀ requester now, statusAt (refundPost store idx requester now) idx =
      some BStatus.canceled) ∧
    (∀ cat now rand r, statusAt (createPost cat store now rand r) idx =
      some BStatus.canceled) ∧
    (∀ (s2 : List Booking) (idx2 : Nat) (b2 : Booking) (ok : Bool) (now rand : Nat),
      s2.get? idx2 = some b2 → b2.status ≠ BStatus.pending →
      initiatePayment s2 idx2 ok now rand =
        Except.error BookingError.stateError) := by
  have hlen : idx < store.length := by
    rcases List.get?_eq_some.mp hb with ⟨hl, _⟩
    exact hl
  have hpay : ∀ ok now rand, initiatePayment store idx ok now rand =
      Except.error BookingError.stateError := by
    intro ok now rand
    unfold initiatePayment
    rw [hb]
    simp [hc]
  have hstatus : statusAt store idx = some BStatus.canceled := by
    unfold statusAt
    rw [hb]
    simp [hc]
  refine ⟨?_, ?_, hpay, ?_, ?_, ?_, ?_⟩
  · intro requester hauth
    unfold cancelBooking
    rw [hb]
    simp [hauth, hc]
  · intro requester
    cases hA : authFails requester b.user with
    | true =>
      have hres : cancelBooking store idx requester =
          Except.error BookingError.authorizationError := by
        unfold cancelBooking
        rw [hb]
        simp [hA]
      unfold cancelPost
      rw [hres]
    | false =>
      have hres : cancelBooking store idx requester =
          Except.error BookingError.stateError := by
        unfold cancelBooking
        rw [hb]
        simp [hA, hc]
      unfold cancelPost
      rw [hres]
  · intro ok now rand
    unfold payPost
    rw [hpay ok now rand]
  · intro requester now
    cases hA : authFails requester b.user with
    | true =>
      have hres : requestRefund store idx requester now =
          Except.error BookingError.authorizationError := by
        unfold requestRefund
        rw [hb]
        simp [hA]
      unfold refundPost
      rw [hres]
      exact hstatus
    | false =>
      cases hR : b.refundRequested with
      | true =>
        have hres : requestRefund store idx requester now =
            Except.error BookingError.stateError := by
          unfold requestRefund
          rw [hb]
          simp [hA, hc, hR]
        unfold refundPost
        rw [hres]
        exact hstatus
      | false =>
        have hres : requestRefund store idx requester now =
            Except.ok (store.set idx
              { b with refundRequested := true, refundRequestedAt := some now }) := by
          unfold requestRefund
          rw [hb]
          simp [hA, hc, hR]
        unfold refundPost
        rw [hres]
        unfold statusAt
        rw [List.get?_set_eq_of_lt _ hlen]
        simp [hc]
  · intro cat now rand r
    have hcases : createPost cat store now rand r = store ∨
        ∃ b2, createPost cat store now rand r = store ++ [b2] := by
      unfold createPost
      cases createBooking cat store now rand r <;> simp
    rcases hcases with hpc | ⟨b2, hpc⟩
    · rw [hpc]
      exact hstatus
    · rw [hpc]
      unfold statusAt
      rw [List.get?_append hlen, hb]
      simp [hc]
  · intro s2 idx2 b2 ok now rand hb2 hst2
    unfold initiatePayment
    rw [hb2]
    simp [hst2]

/-- Witness for C6 at a concrete canceled booking. -/
theorem c6_witness :
    cancelBooking [sampleCanceledBooking] 0 (some 7) =
      Except.error BookingError.stateError ∧
    payPost [sampleCanceledBooking] 0 true 5 6 = [sampleCanceledBooking] ∧
    statusAt (refundPost [sampleCanceledBooking] 0 (some 7) 9) 0 =
      some BStatus.canceled := by
  have h := c6_canceled_terminal [sampleCanceledBooking] 0 sampleCanceledBooking rfl rfl
  exact ⟨h.1 (some 7) rfl, h.2.2.2.1 true 5 6, h.2.2.2.2.1 (some 7) 9⟩

/-- C7: InitiatePayment on a booking whose status is not pending fails
with a StateError and changes nothing; from a pending booking, a failed
simulated payment returns a PaymentError with the store unchanged, and
a successful one sets status to confirmed and overwrites the
transaction identifier with the freshly generated token. -/
theorem c7_initiate_payment_contract (store : List Booking) (idx : Nat)
    (b : Booking) (hb : store.get? idx = some b) :
    (b.status ≠ BStatus.pending → ∀ ok now rand,
      initiatePayment store idx ok now rand =
        Except.error BookingError.stateError ∧
      payPost store idx ok now rand = store) ∧
    (b.status = BStatus.pending → ∀ now rand,
      (initiatePayment store idx false now rand =
        Except.error BookingError.paymentError ∧
       payPost store idx false now rand = store) ∧
      initiatePayment store idx true now rand =
        Except.ok (store.set idx
          { b with transactionId := genTxn now rand, status := BStatus.confirmed })) := by
  constructor
  · intro hst ok now rand
    have herr : initiatePayment store idx ok now rand =
        Except.error BookingError.stateError := by
      unfold initiatePayment
      rw [hb]
      simp [hst]
    exact ⟨herr, by unfold payPost; rw [herr]⟩
  · intro hst now rand
    have herr : initiatePayment store idx false now rand =
        Except.error BookingError.paymentError := by
      unfold initiatePayment
      rw [hb]
      simp [hst]
    refine ⟨⟨herr, by unfold payPost; rw [herr]⟩, ?_⟩
    unfold initiatePayment
    rw [hb]
    simp [hst]

/-- A pending booking (the two observed variants disagree on whether
create starts at pending; this store state exercises the payment
path). -/
def samplePendingBooking : Booking :=
  { samplePlaceBooking with status := BStatus.pending }

/-- Witness for C7 at a concrete pending booking. -/
theorem c7_witness :
    initiatePayment [samplePendingBooking] 0 true 5 6 =
      Except.ok [{ samplePendingBooking with
        transactionId := genTxn 5 6, status := BStatus.confirmed }] ∧
    initiatePayment [samplePendingBooking] 0 false 5 6 =
      Except.error BookingError.paymentError := by
  have h := (c7_initiate_payment_contract [samplePendingBooking] 0
    samplePendingBooking rfl).2 rfl 5 6
  exact ⟨by simpa using h.2, h.1.1⟩

/-- C9: Cancel and RequestRefund fail with an AuthorizationError
exactly when the request carries an authenticated user, the booking has
a non-null owning user, and the two differ; in particular any requester
passes the authorization check on a guest booking (user null). -/
theorem c9_guest_booking_authorization (store : List Booking) (idx : Nat)
    (requester : Option Nat) (now : Nat) (b : Booking)
    (hb : store.get? idx = some b) :
    (cancelBooking store idx requester =
        Except.error BookingError.authorizationError ↔
      ∃ u v, requester = some u ∧ b.user = some v ∧ u ≠ v) ∧
    (requestRefund store idx requester now =
        Except.error BookingError.authorizationError ↔
      ∃ u v, requester = some u ∧ b.user = some v ∧ u ≠ v) ∧
    (b.user = none →
      cancelBooking store idx requester ≠
        Except.error BookingError.authorizationError ∧
      requestRefund store idx requester now ≠
        Except.error BookingError.authorizationError) := by
  have hiff := authFails_iff requester b.user
  have hcancel : cancelBooking store idx requester =
      Except.error BookingError.authorizationError ↔
      ∃ u v, requester = some u ∧ b.user = some v ∧ u ≠ v := by
    cases hA : authFails requester b.user with
    | true =>
      have hres : cancelBooking store idx requester =
          Except.error BookingError.authorizationError := by
        unfold cancelBooking
        rw [hb]
        simp [hA]
      rw [hres]
      constructor
      · intro _
        exact hiff.mp hA
      · intro _
        rfl
    | false =>
      constructor
      · intro h
        exfalso
        unfold cancelBooking at h
        rw [hb] at h
        simp only [hA, Bool.false_eq_true, if_false] at h
        split at h <;> simp at h
      · intro hex
        have := hiff.mpr hex
        rw [hA] at this
        exact Bool.noConfusion this
  have hrefund : requestRefund store idx requester now =
      Except.error BookingError.authorizationError ↔
      ∃ u v, requester = some u ∧ b.user = some v ∧ u ≠ v := by
    cases hA : authFails requester b.user with
    | true =>
      have hres : requestRefund store idx requester now =
          Except.error BookingError.authorizationError := by
        unfold requestRefund
        rw [hb]
        simp [hA]
      rw [hres]
      constructor
      · intro _
        exact hiff.mp hA
      · intro _
        rfl
    | false =>
      constructor
      · intro h
        exfalso
        unfold requestRefund at h
        rw [hb] at h
        simp only [hA, Bool.false_eq_true, if_false] at h
        split at h
        · simp at h
        · split at h <;> simp at h
      · intro hex
        have := hiff.mpr hex
        rw [hA] at this
        exact Bool.noConfusion this
  refine ⟨hcancel, hrefund, ?_⟩
  intro hnone
  constructor
  · intro h
    rcases hcancel.mp h with ⟨u, v, _, hv, _⟩
    rw [hnone] at hv
    exact Option.noConfusion hv
  · intro h
    rcases hrefund.mp h with ⟨u, v, _, hv, _⟩
    rw [hnone] at hv
    exact Option.noConfusion hv

/-- A guest booking: no owning user recorded. -/
def sampleGuestBooking : Booking := { samplePlaceBooking with user := none }

/-- Witness for C9: an authenticated stranger passes the authorization
check on a guest booking. -/
theorem c9_witness :
    cancelBooking [sampleGuestBooking] 0 (some 99) ≠
      Except.error BookingError.authorizationError ∧
    requestRefund [sampleGuestBooking] 0 (some 99) 4 ≠
      Except.error BookingError.authorizationError :=
  (c9_guest_booking_authorization [sampleGuestBooking] 0 (some 99) 4
    sampleGuestBooking rfl).2.2 rfl

/-- A pair involving a non-confirmed right booking never double-books. -/
lemma conflictPair_right_not_confirmed (a b : Booking)
    (h : b.status ≠ BStatus.confirmed) : conflictPair a b = false := by
  unfold conflictPair
  rw [decide_eq_false h]
  simp

/-- A pair involving a non-confirmed left booking never double-books. -/
lemma conflictPair_left_not_confirmed (a b : Booking)
    (h : a.status ≠ BStatus.confirmed) : conflictPair a b = false := by
  unfold conflictPair
  rw [decide_eq_false h]
  simp

/-- Inversion of the samePlace test. -/
lemma samePlace_inv (x y : Option Nat) (h : samePlace x y = true) :
    ∃ p, x = some p ∧ y = some p := by
  cases x with
  | none => simp [samePlace] at h
  | some p =>
    cases y with
    | none => simp [samePlace] at h
    | some q =>
      simp only [samePlace, decide_eq_true_eq] at h
      exact ⟨p, rfl, by rw [h]⟩

/-- Inversion of the rangesOverlap test. -/
lemma rangesOverlap_inv (w x y z : Option Nat) (h : rangesOverlap w x y z = true) :
    ∃ ai ao bi bo, w = some ai ∧ x = some ao ∧ y = some bi ∧ z = some bo ∧
      ai < bo ∧ bi < ao := by
  cases w with
  | none => simp [rangesOverlap] at h
  | some ai =>
    cases x with
    | none => simp [rangesOverlap] at h
    | some ao =>
      cases y with
      | none => simp [rangesOverlap] at h
      | some bi =>
        cases z with
        | none => simp [rangesOverlap] at h
        | some bo =>
          simp only [rangesOverlap, Bool.and_eq_true, decide_eq_true_eq] at h
          exact ⟨ai, ao, bi, bo, rfl, rfl, rfl, rfl, h.1, h.2⟩

/-- Inversion of a double-booking pair. -/
lemma conflictPair_inv (a b : Booking) (h : conflictPair a b = true) :
    a.status = BStatus.confirmed ∧ b.status = BStatus.confirmed ∧
    (∃ p, a.placeRef = some p ∧ b.placeRef = some p) ∧
    (∃ ai ao bi bo, a.checkIn = some ai ∧ a.checkOut = some ao ∧
      b.checkIn = some bi ∧ b.checkOut = some bo ∧ ai < bo ∧ bi < ao) := by
  unfold conflictPair at h
  simp only [Bool.and_eq_true, decide_eq_true_eq] at h
  obtain ⟨⟨⟨hsa, hsb⟩, hsp⟩, hro⟩ := h
  exact ⟨hsa, hsb, samePlace_inv _ _ hsp,
    rangesOverlap_inv _ _ _ _ hro⟩

/-- A member that double-books with the overlap-query shape makes the
query match. -/
lemma hasConflict_of_pair (s : List Booking) (x : Booking) (itemId ci co : Nat)
    (hx : x ∈ s) (hpl : x.placeRef = some itemId)
    (hst : x.status = BStatus.confirmed)
    (hcl : overlapClause x ci co = true) :
    hasConflict s itemId ci co = true := by
  unfold hasConflict
  rw [List.any_eq_true]
  exact ⟨x, hx, by simp [hpl, hst, hcl]⟩

/-- noConflictWith spelled out as a universally quantified statement. -/
lemma noConflictWith_iff (b : Booking) (l : List Booking) :
    noConflictWith b l = true ↔ ∀ x ∈ l, conflictPair b x = false := by
  unfold noConflictWith
  rw [List.all_eq_true]
  constructor
  · intro h x hx
    have hb := h x hx
    revert hb
    cases conflictPair b x <;> simp
  · intro h x hx
    rw [h x hx]
    rfl

/-- Appending one booking: the store stays free of double bookings iff
it was and the new booking conflicts with no existing one. -/
lemma noDouble_append (s : List Booking) (b : Booking) :
    noDoubleBook (s ++ [b]) =
      (noDoubleBook s && s.all (fun x => !conflictPair x b)) := by
  induction s with
  | nil => simp [noDoubleBook, noConflictWith]
  | cons a t ih =>
    show noDoubleBook (a :: (t ++ [b])) = _
    unfold noDoubleBook
    rw [ih]
    unfold noConflictWith
    rw [List.all_append]
    simp only [List.all_cons, List.all_nil, Bool.and_true]
    cases conflictPair a b <;> cases t.all (fun x => !conflictPair a x) <;>
      cases noDoubleBook t <;> cases t.all (fun x => !conflictPair x b) <;> simp

/-- Setting an entry to a value satisfying the predicate preserves
List.all. -/
lemma all_set {α : Type} (p : α → Bool) :
    ∀ (t : List α) (n : Nat) (b : α), t.all p = true → p b = true →
      (t.set n b).all p = true := by
  intro t
  induction t with
  | nil =>
    intro n b _ _
    simp
  | cons a t ih =>
    intro n b hall hb
    cases n with
    | zero =>
      simp only [List.set_cons_zero, List.all_cons, Bool.and_eq_true] at hall ⊢
      exact ⟨hb, hall.2⟩
    | succ m =>
      simp only [List.set_cons_succ, List.all_cons, Bool.and_eq_true] at hall ⊢
      exact ⟨hall.1, ih m b hall.2 hb⟩

/-- Replacing a stored booking by one whose double-booking pairs are no
worse preserves freedom from double bookings. -/
lemma noDouble_set_mono (s : List Booking) :
    ∀ (n : Nat) (b b2 : Booking), s.get? n = some b →
      (∀ a, conflictPair a b2 = true → conflictPair a b = true) →
      (∀ a, conflictPair b2 a = true → conflictPair b a = true) →
      noDoubleBook s = true → noDoubleBook (s.set n b2) = true := by
  induction s with
  | nil =>
    intro n b b2 hget _ _ _
    simp [noDoubleBook]
  | cons a t ih =>
    intro n b b2 hget h1 h2 h
    unfold noDoubleBook at h
    simp only [Bool.and_eq_true] at h
    cases n with
    | zero =>
      have ha : a = b := by
        simpa using hget
      subst ha
      simp only [List.set_cons_zero]
      unfold noDoubleBook
      simp only [Bool.and_eq_true]
      refine ⟨?_, h.2⟩
      rw [noConflictWith_iff]
      intro x hx
      by_contra hne
      have hcp : conflictPair b2 x = true := by
        revert hne
        cases conflictPair b2 x <;> simp
      have hbx := h2 x hcp
      have hfalse := (noConflictWith_iff a t).mp h.1 x hx
      rw [hfalse] at hbx
      exact Bool.noConfusion hbx
    | succ m =>
      have hget2 : t.get? m = some b := by
        simpa using hget
      simp only [List.set_cons_succ]
      unfold noDoubleBook
      simp only [Bool.and_eq_true]
      refine ⟨?_, ih m b b2 hget2 h1 h2 h.2⟩
      rw [noConflictWith_iff]
      intro x hx
      rcases List.mem_or_eq_of_mem_set hx with hx2 | hx2
      · exact (noConflictWith_iff a t).mp h.1 x hx2
      · subst hx2
        by_contra hne
        have hcp : conflictPair a x = true := by
          revert hne
          cases conflictPair a x <;> simp
        have hab := h1 a hcp
        have hbm : b ∈ t := List.get?_mem hget2
        have hfalse := (noConflictWith_iff a t).mp h.1 b hbm
        rw [hfalse] at hab
        exact Bool.noConfusion hab

/-- The inductive invariant: no stored booking is pending and no two
stored bookings double-book a place. -/
def GoodState (s : List Booking) : Prop :=
  noPending s = true ∧ noDoubleBook s = true

/-- Membership consequence of noPending. -/
lemma noPending_mem (s : List Booking) (b : Booking)
    (hg : noPending s = true) (hmem : b ∈ s) :
    b.status ≠ BStatus.pending := by
  unfold noPending at hg
  rw [List.all_eq_true] at hg
  have hb := hg b hmem
  simpa using hb

/-- A create request preserves the invariant: the persisted booking is
confirmed and the availability check ensures it overlaps no confirmed
booking of its place. -/
lemma good_create (cat : Catalog) (s : List Booking) (now rand : Nat)
    (r : CreateReq) (hg : GoodState s) :
    GoodState (createPost cat s now rand r) := by
  unfold createPost
  cases hc : createBooking cat s now rand r with
  | validationError => exact hg
  | notFoundError => exact hg
  | conflictError => exact hg
  | internalError => exact hg
  | created b =>
    obtain ⟨itemId, ci, co, item, _, _, _, _, _, _, hconf, hb⟩ :=
      createBooking_created_inv cat s now rand r b hc
    subst hb
    constructor
    · have h1 := hg.1
      unfold noPending at h1 ⊢
      rw [List.all_append, h1]
      rfl
    · rw [noDouble_append, hg.2]
      simp only [Bool.true_and]
      rw [List.all_eq_true]
      intro x hx
      by_contra hne
      have hcp : conflictPair x (mkPlaceBooking r itemId ci co item now rand) = true := by
        revert hne
        cases conflictPair x (mkPlaceBooking r itemId ci co item now rand) <;> simp
      obtain ⟨hsx, _, ⟨p, hxp, hbp⟩, ai, ao, bi, bo, hxi, hxo, hbi, hbo, hov1, hov2⟩ :=
        conflictPair_inv x (mkPlaceBooking r itemId ci co item now rand) hcp
      have hbp2 : (some itemId : Option Nat) = some p := hbp
      have hbi2 : (some ci : Option Nat) = some bi := hbi
      have hbo2 : (some co : Option Nat) = some bo := hbo
      injection hbp2 with hp
      injection hbi2 with hbi3
      injection hbo2 with hbo3
      have hcl : overlapClause x ci co = true := by
        refine clause_of_overlap x ci co ai ao hxi hxo ?_ ?_
        · omega
        · omega
      have htrue : hasConflict s itemId ci co = true := by
        refine hasConflict_of_pair s x itemId ci co hx ?_ hsx hcl
        rw [hxp, hp]
      rw [hconf] at htrue
      exact Bool.noConfusion htrue

/-- initiatePayment preserves the invariant: with no pending booking in
the store it always rejects. -/
lemma good_pay (s : List Booking) (idx : Nat) (ok : Bool) (now rand : Nat)
    (hg : GoodState s) : GoodState (payPost s idx ok now rand) := by
  cases hb : s.get? idx with
  | none =>
    have hres : initiatePayment s idx ok now rand =
        Except.error BookingError.notFoundError := by
      unfold initiatePayment
      rw [hb]
    unfold payPost
    rw [hres]
    exact hg
  | some b =>
    have hbp : b.status ≠ BStatus.pending :=
      noPending_mem s b hg.1 (List.get?_mem hb)
    have hres : initiatePayment s idx ok now rand =
        Except.error BookingError.stateError := by
      unfold initiatePayment
      rw [hb]
      simp [hbp]
    unfold payPost
    rw [hres]
    exact hg

/-- cancelBooking preserves the invariant: a canceled booking can be
part of no double-booking pair. -/
lemma good_cancel (s : List Booking) (idx : Nat) (requester : Option Nat)
    (hg : GoodState s) : GoodState (cancelPost s idx requester) := by
  cases hb : s.get? idx with
  | none =>
    have hres : cancelBooking s idx requester =
        Except.error BookingError.notFoundError := by
      unfold cancelBooking
      rw [hb]
    unfold cancelPost
    rw [hres]
    exact hg
  | some b =>
    cases hA : authFails requester b.user with
    | true =>
      have hres : cancelBooking s idx requester =
          Except.error BookingError.authorizationError := by
        unfold cancelBooking
        rw [hb]
        simp [hA]
      unfold cancelPost
      rw [hres]
      exact hg
    | false =>
      by_cases hst : b.status = BStatus.canceled
      · have hres : cancelBooking s idx requester =
            Except.error BookingError.stateError := by
          unfold cancelBooking
          rw [hb]
          simp [hA, hst]
        unfold cancelPost
        rw [hres]
        exact hg
      · have hres : cancelBooking s idx requester =
            Except.ok (s.set idx { b with status := BStatus.canceled }) := by
          unfold cancelBooking
          rw [hb]
          simp [hA, hst]
        unfold cancelPost
        rw [hres]
        constructor
        · have h1 := hg.1
          unfold noPending at h1 ⊢
          exact all_set _ s idx _ h1 rfl
        · refine noDouble_set_mono s idx b _ hb ?_ ?_ hg.2
          · intro a ha
            rw [conflictPair_right_not_confirmed a _
              (by intro hcon; exact BStatus.noConfusion hcon)] at ha
            exact Bool.noConfusion ha
          · intro a ha
            rw [conflictPair_left_not_confirmed _ a
              (by intro hcon; exact BStatus.noConfusion hcon)] at ha
            exact Bool.noConfusion ha

/-- requestRefund preserves the invariant: the update touches no field
used by either invariant. -/
lemma good_refund (s : List Booking) (idx : Nat) (requester : Option Nat)
    (now : Nat) (hg : GoodState s) :
    GoodState (refundPost s idx requester now) := by
  cases hb : s.get? idx with
  | none =>
    have hres : requestRefund s idx requester now =
        Except.error BookingError.notFoundError := by
      unfold requestRefund
      rw [hb]
    unfold refundPost
    rw [hres]
    exact hg
  | some b =>
    cases hA : authFails requester b.user with
    | true =>
      have hres : requestRefund s idx requester now =
          Except.error BookingError.authorizationError := by
        unfold requestRefund
        rw [hb]
        simp [hA]
      unfold refundPost
      rw [hres]
      exact hg
    | false =>
      by_cases hst : b.status = BStatus.canceled
      · cases hR : b.refundRequested with
        | true =>
          have hres : requestRefund s idx requester now =
              Except.error BookingError.stateError := by
            unfold requestRefund
            rw [hb]
            simp [hA, hst, hR]
          unfold refundPost
          rw [hres]
          exact hg
        | false =>
          have hres : requestRefund s idx requester now =
              Except.ok (s.set idx
                { b with refundRequested := true, refundRequestedAt := some now }) := by
            unfold requestRefund
            rw [hb]
            simp [hA, hst, hR]
          unfold refundPost
          rw [hres]
          constructor
          · have h1 := hg.1
            unfold noPending at h1 ⊢
            refine all_set _ s idx _ h1 ?_
            have hbp : b.status ≠ BStatus.pending :=
              noPending_mem s b hg.1 (List.get?_mem hb)
            simpa using hbp
          · refine noDouble_set_mono s idx b _ hb ?_ ?_ hg.2
            · intro a ha
              exact ha
            · intro a ha
              exact ha
      · have hres : requestRefund s idx requester now =
            Except.error BookingError.stateError := by
          unfold requestRefund
          rw [hb]
          simp [hA, hst]
        unfold refundPost
        rw [hres]
        exact hg

/-- C1: starting from the empty store, every state reachable by
sequences of Create, InitiatePayment, Cancel, and RequestRefund
operations is free of double bookings: no two confirmed bookings of
the same place have overlapping half-open date ranges. -/
theorem c1_sequential_no_double_booking (cat : Catalog) (s : List Booking)
    (h : Reachable cat s) : noDoubleBook s = true := by
  have hg : GoodState s := by
    induction h with
    | empty => exact ⟨rfl, rfl⟩
    | createStep s2 now rand r _ ih => exact good_create cat s2 now rand r ih
    | payStep s2 idx ok now rand _ ih => exact good_pay s2 idx ok now rand ih
    | cancelStep s2 idx requester _ ih => exact good_cancel s2 idx requester ih
    | refundStep s2 idx requester now _ ih =>
      exact good_refund s2 idx requester now ih
  exact hg.2

/-- Witness for C1 at the store reached by one concrete create. -/
theorem c1_witness :
    noDoubleBook (createPost sampleCatalog [] 0 0 samplePlaceReq) = true :=
  c1_sequential_no_double_booking sampleCatalog _
    (Reachable.createStep [] 0 0 samplePlaceReq Reachable.empty)
